import Mathlib

/-!
Verification development for the STM32F4_SD repository: a shallow embedding
of the FAT32 layer (`app/src/fat.c`) and the SD-card SPI block device
(`app/src/sdcard.c`), together with theorems settling the specification
claims about them.

Machine integers are embedded as `Nat` with explicit `% 4294967296`
(resp. `% 256`, `% 65536`) wherever the C source performs `uint32_t`
(resp. `uint8_t`, `uint16_t`) arithmetic whose wrap-around can matter.
The single-sector read cache (`FAT_ReadSector`) is content-transparent on
an immutable disk: a cached sector always holds exactly the medium's bytes
for that sector, so sector reads are embedded as direct disk accesses.
-/

/-- Disk model: the byte stored at (sector, byte offset). Values are reduced
mod 256 at every access (`rdByte`), mirroring the `uint8_t buf[512]` the C
code reads sectors into. -/
def Disk : Type := Nat → Nat → Nat

/-- One byte read from the medium (a `uint8_t`). -/
def rdByte (d : Disk) (sector off : Nat) : Nat := d sector off % 256

/-- Little-endian 16-bit word at (sector, off), as read through a packed
struct field on a little-endian host. -/
def le16 (d : Disk) (sector off : Nat) : Nat :=
  rdByte d sector off + 256 * rdByte d sector (off + 1)

/-- Little-endian 32-bit word at (sector, off). -/
def le32 (d : Disk) (sector off : Nat) : Nat :=
  rdByte d sector off + 256 * rdByte d sector (off + 1) +
    65536 * rdByte d sector (off + 2) + 16777216 * rdByte d sector (off + 3)

/-- Mirror of `FAT_PartitionInfo` from fat.c (the geometry record filled in
by `FAT_Init` for partition 0 of disk 0). -/
structure FAT_PartitionInfo where
  type : Nat
  startAddress : Nat
  length : Nat
  startFatSector : Nat
  rootDirSector : Nat
  rootDirCluster : Nat
  dataStartSector : Nat
  sectorsPerCluster : Nat
  bytesPerSector : Nat
  deriving Repr, DecidableEq

/-- Embedding of `FAT_Cluster2Sector`:
`dataStartSector + (cluster - 2) * sectorsPerCluster` in `uint32_t`
arithmetic (`cluster - 2` wraps, the product and sum wrap). -/
def FAT_Cluster2Sector (g : FAT_PartitionInfo) (cluster : Nat) : Nat :=
  (g.dataStartSector + ((cluster + 4294967294) % 4294967296) * g.sectorsPerCluster)
    % 4294967296

/-- Embedding of `FAT_GetEntryInFAT`:
`sector = startFatSector + cluster*4/bytesPerSector` (uint32 arithmetic),
`uint8_t offset = (cluster*4) % bytesPerSector` — note the `uint8_t`
truncation of the in-sector offset, and that the 32-bit word is returned
with no `0x0fffffff` mask. -/
def FAT_GetEntryInFAT (d : Disk) (g : FAT_PartitionInfo) (cluster : Nat) : Nat :=
  let bytePos := cluster * 4 % 4294967296
  let sector := (g.startFatSector + bytePos / g.bytesPerSector) % 4294967296
  let offset := (bytePos % g.bytesPerSector) % 256
  le32 d sector offset

/-- Specification-side FAT lookup, following the spec's words:
sector `fat_start_sector + (c × 4) / 512`, byte offset `(c × 4) mod 512`,
little-endian 32-bit word masked with `0x0FFF_FFFF`. -/
def fat_entry_spec (d : Disk) (g : FAT_PartitionInfo) (c : Nat) : Nat :=
  Nat.land (le32 d (g.startFatSector + c * 4 / 512) (c * 4 % 512)) 0x0fffffff

/-- The loop body of `FAT_GetCluster`, by recursion on the remaining number
of links to follow. At each step the FAT entry of the current cluster is
fetched; if it equals the raw word `0xFFFFFFFF` the walk stops, returning
that entry value and the number of links successfully followed so far. -/
def fatClusterWalk (d : Disk) (g : FAT_PartitionInfo) : Nat → Nat → Nat × Nat
  | 0, entry => (entry, 0)
  | k + 1, entry =>
    let e := FAT_GetEntryInFAT d g entry
    if e = 4294967295 then (e, 0)
    else
      let p := fatClusterWalk d g k e
      (p.1, p.2 + 1)

/-- Embedding of `FAT_GetCluster(firstCluster, clusterOffset, &clusterNumber)`:
returns (the `*clusterNumber` output, the `int` return value). -/
def FAT_GetCluster (d : Disk) (g : FAT_PartitionInfo)
    (firstCluster clusterOffset : Nat) : Nat × Nat :=
  fatClusterWalk d g clusterOffset firstCluster

/-- The cluster reached after following `i` FAT links from `first` using the
code's own `FAT_GetEntryInFAT` (no end-of-chain check). -/
def chainAt (d : Disk) (g : FAT_PartitionInfo) (first : Nat) : Nat → Nat
  | 0 => first
  | i + 1 => FAT_GetEntryInFAT d g (chainAt d g first i)

/-- Mirror of the `FAT_File` slot structure from fat.c. `id = -1` marks a
free slot; cursors are `uint32_t` and hence modelled as `Nat`. The 8.3 name
is carried as its 11 raw bytes. -/
structure FAT_File where
  filename : List Nat
  firstCluster : Nat
  fileSize : Nat
  attributes : Nat
  lastModifiedTime : Nat
  lastModifiedDate : Nat
  rootDirEntry : Nat
  id : Int
  wrPtr : Nat
  rdPtr : Nat
  deriving Repr, DecidableEq

/-- Access to `openedFiles[file]` with an `int` index, made total: `none`
means the C code performs an out-of-bounds array access (reached exactly
when the index is outside the table). -/
def tableGet (t : List FAT_File) (i : Int) : Option FAT_File :=
  if h : 0 ≤ i ∧ i.toNat < t.length then some (t.get ⟨i.toNat, h.2⟩) else none

/-- Result of a handle-taking operation that returns an `int` and may
update the open-file table. `oob` marks the out-of-bounds table access a
negative handle leads to. -/
inductive HandleRes where
  | oob : HandleRes
  | ret : Int → List FAT_File → HandleRes
  deriving Repr, DecidableEq

/-- Embedding of `FAT_CloseFile`: only `file >= MAX_OPENED_FILES` (= 32) is
rejected up front; then `openedFiles[file].id` is read. -/
def FAT_CloseFile (t : List FAT_File) (file : Int) : HandleRes :=
  if 32 ≤ file then .ret (-1) t
  else
    match tableGet t file with
    | none => .oob
    | some slot =>
      if slot.id = -1 then .ret (-1) t
      else .ret file (t.set file.toNat { slot with id := -1 })

/-- Embedding of `FAT_MoveRdPtr`. The C compares `int newWrPtr` against the
`uint32_t` file size, so the argument is converted to `uint32_t` first. -/
def FAT_MoveRdPtr (t : List FAT_File) (file : Int) (newWrPtr : Int) : HandleRes :=
  if 32 ≤ file then .ret (-1) t
  else
    match tableGet t file with
    | none => .oob
    | some slot =>
      if slot.id = -1 then .ret (-1) t
      else
        let v := (newWrPtr % 4294967296).toNat
        if slot.fileSize < v then .ret (-1) t
        else .ret newWrPtr (t.set file.toNat { slot with rdPtr := v })

/-- Embedding of `FAT_MoveWrPtr`. The bound check against the file size is
commented out in the source, so any value is stored (converted to
`uint32_t`). -/
def FAT_MoveWrPtr (t : List FAT_File) (file : Int) (newWrPtr : Int) : HandleRes :=
  if 32 ≤ file then .ret (-1) t
  else
    match tableGet t file with
    | none => .oob
    | some slot =>
      if slot.id = -1 then .ret (-1) t
      else .ret newWrPtr (t.set file.toNat { slot with wrPtr := (newWrPtr % 4294967296).toNat })

/-- Result of `FAT_ReadFile`: the `int` return value, the bytes copied into
the caller's buffer, and the table after the read-cursor update (`oob` as
in `HandleRes`). -/
inductive ReadRes where
  | oob : ReadRes
  | ret : Int → List Nat → List FAT_File → ReadRes
  deriving Repr, DecidableEq

/-- The copy loop of `FAT_ReadFile`, by recursion on the remaining count.
State: current read pointer, current data cluster (`baseCluster`), sector
within that cluster (`sectorOffset`), absolute sector loaded in the buffer
(`baseSector`) and the running buffer offset (`ptr - buf`). Returns the
bytes copied and the final read pointer. The sector fetches are direct
disk reads (see the header note on the read cache). -/
def readLoop (d : Disk) (g : FAT_PartitionInfo) (fileSize : Nat) :
    Nat → Nat → Nat → Nat → Nat → Nat → List Nat × Nat
  | 0, rdPtr, _, _, _, _ => ([], rdPtr)
  | count + 1, rdPtr, baseCluster, sectorOffset, baseSector, ptrOff =>
    let byte := rdByte d baseSector ptrOff
    let rdPtr' := rdPtr + 1
    if fileSize ≤ rdPtr' then ([byte], rdPtr')
    else if rdPtr' % 512 = 0 then
      let so := (sectorOffset + 1) % g.sectorsPerCluster
      let bc := if so = 0 then (FAT_GetCluster d g baseCluster 1).1 else baseCluster
      let bs := (FAT_Cluster2Sector g bc + so) % 4294967296
      let r := readLoop d g fileSize count rdPtr' bc so bs 0
      (byte :: r.1, r.2)
    else
      let r := readLoop d g fileSize count rdPtr' baseCluster sectorOffset baseSector (ptrOff + 1)
      (byte :: r.1, r.2)

/-- Embedding of `FAT_ReadFile(file, data, count)`. The C `count` is an
`int` used only as an iteration bound, embedded as a `Nat`. -/
def FAT_ReadFile (d : Disk) (g : FAT_PartitionInfo) (t : List FAT_File)
    (file : Int) (count : Nat) : ReadRes :=
  if 32 ≤ file then .ret (-1) [] t
  else
    match tableGet t file with
    | none => .oob
    | some slot =>
      if slot.id = -1 then .ret (-1) [] t
      else if slot.fileSize ≤ slot.rdPtr then .ret (-1) [] t
      else
        let sectorInFile := slot.rdPtr / 512
        let clusterOffset := sectorInFile / g.sectorsPerCluster
        let sectorOffset := sectorInFile % g.sectorsPerCluster
        let baseCluster := (FAT_GetCluster d g slot.firstCluster clusterOffset).1
        let baseSector := (FAT_Cluster2Sector g baseCluster + sectorOffset) % 4294967296
        let out := readLoop d g slot.fileSize count slot.rdPtr baseCluster
          sectorOffset baseSector (slot.rdPtr % 512)
        .ret out.1.length out.1 (t.set file.toNat { slot with rdPtr := out.2 })

/-- Embedding of `FAT_GetNextId`: index of the first free slot, -1 when the
table is full. -/
def FAT_GetNextId (t : List FAT_File) : Int :=
  match t.findIdx? (fun f => f.id = -1) with
  | some i => (i : Int)
  | none => -1

/-- The 11 raw bytes of a directory entry's 8.3 name at (sector, off). -/
def dirName (d : Disk) (sector off : Nat) : List Nat :=
  (List.range 11).map (fun k => rdByte d sector (off + k))

/-- The root-directory scan loop of `FAT_FindFile`, with fuel bounding the
number of 32-byte entries examined (the C loop is `while(1)`).
State: entry counter `i`, sector counter `j`, the current root cluster
(never advanced — the FAT-chain step is commented out in the source) and
the sector currently in the buffer. Every 16 entries the next physically
adjacent sector `FAT_Cluster2Sector(cluster) + j` is fetched. Returns
`some none` for "last entry reached, not found" (`return -1`),
`some (some f)` for a hit, `none` when fuel runs out. String comparison of
the space-padded names is embedded as equality of the 11 raw bytes. -/
def findLoop (d : Disk) (g : FAT_PartitionInfo) (t : List FAT_File)
    (target : List Nat) : Nat → Nat → Nat → Nat → Nat → Option (Option FAT_File)
  | 0, _, _, _, _ => none
  | fuel + 1, i, j, cluster, curSector =>
    let sec := if i % 16 = 0 then (FAT_Cluster2Sector g cluster + j) % 4294967296
               else curSector
    let j' := if i % 16 = 0 then j + 1 else j
    let off := (i % 16) * 32
    if rdByte d sec off = 0 then some none
    else if rdByte d sec off = 0xe5 then findLoop d g t target fuel (i + 1) j' cluster sec
    else if rdByte d sec (off + 11) = 0x0f then findLoop d g t target fuel (i + 1) j' cluster sec
    else if dirName d sec off = target then
      some (some
        { filename := target
          firstCluster := Nat.lor (le16 d sec (off + 20) * 65536) (le16 d sec (off + 26))
          fileSize := le32 d sec (off + 28)
          attributes := rdByte d sec (off + 11)
          lastModifiedTime := le16 d sec (off + 22)
          lastModifiedDate := le16 d sec (off + 24)
          rootDirEntry := i
          id := FAT_GetNextId t
          wrPtr := 0
          rdPtr := 0 })
    else findLoop d g t target fuel (i + 1) j' cluster sec

/-- Embedding of `FAT_FindFile`, starting at the root-directory cluster
with both counters zero. -/
def FAT_FindFile (d : Disk) (g : FAT_PartitionInfo) (t : List FAT_File)
    (target : List Nat) (fuel : Nat) : Option (Option FAT_File) :=
  findLoop d g t target fuel 0 0 g.rootDirCluster 0

/-- Outcome of `FAT_Init` (mount): the two signature failures return -1 and
-2; the partition-size and sector-size checks end in `while(1);` loops,
marked by the two hang constructors. -/
inductive MountResult where
  | badMbrSignature : MountResult
  | badVbrSignature : MountResult
  | hangSizeMismatch : MountResult
  | hangSectorSize : MountResult
  | ok : FAT_PartitionInfo → MountResult
  deriving Repr, DecidableEq

/-- Partition-table entry `k` of the MBR as `FAT_Init` records it in
`partitionInfo[k]`: empty entries (type byte 0) leave the zero-initialized
static record untouched. Entry `k` starts at byte 446 + 16k; the type byte
is at +4, the LBA at +8 (LE32) and the sector count at +12 (LE32). -/
def mbrPartitionEntry (d : Disk) (k : Nat) : FAT_PartitionInfo :=
  if rdByte d 0 (446 + 16 * k + 4) = 0 then ⟨0, 0, 0, 0, 0, 0, 0, 0, 0⟩
  else
    { type := rdByte d 0 (446 + 16 * k + 4)
      startAddress := le32 d 0 (446 + 16 * k + 8)
      length := le32 d 0 (446 + 16 * k + 12)
      startFatSector := 0, rootDirSector := 0, rootDirCluster := 0
      dataStartSector := 0, sectorsPerCluster := 0, bytesPerSector := 0 }

/-- The boot-sector stage of `FAT_Init`, applied to the recorded
partition-0 entry: VBR signature check, `totalSectors32` cross-check
(offset 32), sector-size check (offset 11), then the geometry fields are
filled in. BPB offsets: sectorsPerCluster 13, reservedSectors 14 (LE16),
numberOfFATs 16, sectorsPerFAT32 36 (LE32), rootCluster 44 (LE32). -/
def vbrStage (d : Disk) (p0 : FAT_PartitionInfo) : MountResult :=
  let s := p0.startAddress
  if le16 d s 510 ≠ 0xaa55 then .badVbrSignature
  else if le32 d s 32 ≠ p0.length then .hangSizeMismatch
  else if le16 d s 11 ≠ 512 then .hangSectorSize
  else
    let fatStart := (s + le16 d s 14) % 4294967296
    let clusterStart := (fatStart + rdByte d s 16 * le32 d s 36) % 4294967296
    let g0 : FAT_PartitionInfo :=
      { p0 with
        startFatSector := fatStart
        dataStartSector := clusterStart
        sectorsPerCluster := rdByte d s 13
        bytesPerSector := le16 d s 11
        rootDirCluster := le32 d s 44 }
    .ok { g0 with rootDirSector := FAT_Cluster2Sector g0 (le32 d s 44) }

/-- Embedding of `FAT_Init` (mount): check the MBR signature at offset 510,
record the four partition-table entries, then unconditionally read the boot
sector of the recorded partition-0 entry. -/
def FAT_Init (d : Disk) : MountResult :=
  if le16 d 0 510 ≠ 0xaa55 then .badMbrSignature
  else vbrStage d (mbrPartitionEntry d 0)

/-- The data cluster holding byte position `p` of a file with first cluster
`first`: the FAT chain walked to cluster offset
`(p / 512) / sectorsPerCluster`. -/
def posCluster (d : Disk) (g : FAT_PartitionInfo) (first p : Nat) : Nat :=
  chainAt d g first (p / 512 / g.sectorsPerCluster)

/-- The sector within its cluster of byte position `p`:
`(p / 512) % sectorsPerCluster`. -/
def posSo (g : FAT_PartitionInfo) (p : Nat) : Nat := p / 512 % g.sectorsPerCluster

/-- The absolute sector holding byte position `p` (the same `uint32_t`
expression the read path computes). -/
def posSector (d : Disk) (g : FAT_PartitionInfo) (first p : Nat) : Nat :=
  (FAT_Cluster2Sector g (posCluster d g first p) + posSo g p) % 4294967296

/-- The byte the on-medium layout assigns to position `p` of a file whose
first cluster is `first`. -/
def fileByte (d : Disk) (g : FAT_PartitionInfo) (first p : Nat) : Nat :=
  rdByte d (posSector d g first p) (p % 512)

/-! SD-card SPI block device (`app/src/sdcard.c`). The card is modelled as
the sequence of bytes it puts on MISO: `Card n` is the byte received on the
n-th full-duplex exchange since power-up. The host side of every exchange,
and the chip-select edges, are recorded in an event trace (most recent
event first, so each step is a cons). -/

/-- A card behaviour: received byte per exchange index. -/
def Card : Type := Nat → Nat

/-- One bus event: a byte exchange (tx, rx) or a chip-select edge. -/
inductive Ev where
  | xch : Nat → Nat → Ev
  | sel : Ev
  | desel : Ev
  deriving Repr, DecidableEq

/-- SPI bus state: number of exchanges so far and the reversed event
trace. -/
structure Spi where
  n : Nat
  evs : List Ev
  deriving Repr, DecidableEq

/-- `SD_HAL_TransmitData` / `SPI1_Transmit`: one full-duplex byte exchange
(`uint8_t` in, `uint8_t` out). -/
def xch (c : Card) (s : Spi) (tx : Nat) : Nat × Spi :=
  (c s.n % 256, ⟨s.n + 1, .xch (tx % 256) (c s.n % 256) :: s.evs⟩)

/-- `SD_HAL_SelectCard`. -/
def spiSelect (s : Spi) : Spi := ⟨s.n, .sel :: s.evs⟩

/-- `SD_HAL_DeselectCard`. -/
def spiDeselect (s : Spi) : Spi := ⟨s.n, .desel :: s.evs⟩

/-- The fixed CRC byte `SD_SendCommand` appends: 0x95 for CMD0, 0x87 for
CMD8, 0xFF otherwise. -/
def cmdCrc (cmd : Nat) : Nat := if cmd = 0 then 0x95 else if cmd = 8 then 0x87 else 0xff

/-- Embedding of `SD_SendCommand(cmd, args)`: the 6-byte frame
(`0x40 | cmd`, the four argument bytes MSB first, the CRC byte), then one
dummy 0xFF exchange, then one more 0xFF exchange whose received byte is
returned unconditionally as the R1 response. -/
def SD_SendCommand (c : Card) (s : Spi) (cmd args : Nat) : Nat × Spi :=
  let s1 := (xch c s (Nat.lor 0x40 cmd)).2
  let s2 := (xch c s1 (args >>> 24)).2
  let s3 := (xch c s2 (args >>> 16)).2
  let s4 := (xch c s3 (args >>> 8)).2
  let s5 := (xch c s4 args).2
  let s6 := (xch c s5 (cmdCrc cmd)).2
  let s7 := (xch c s6 0xff).2
  xch c s7 0xff

/-- Embedding of `SD_GetResponseR3orR7`: four more 0xFF exchanges, returning
the received bytes. -/
def SD_GetResponseR3orR7 (c : Card) (s : Spi) : List Nat × Spi :=
  let r1 := xch c s 0xff
  let r2 := xch c r1.2 0xff
  let r3 := xch c r2.2 0xff
  let r4 := xch c r3.2 0xff
  ([r1.1, r2.1, r3.1, r4.1], r4.2)

/-- A `while (SD_HAL_TransmitData(0xff) != token)` wait, bounded by fuel
(the C loop is unbounded). -/
def waitToken (c : Card) (token : Nat) : Nat → Spi → Option Spi
  | 0, _ => none
  | fuel + 1, s =>
    let r := xch c s 0xff
    if r.1 = token then some r.2 else waitToken c token fuel r.2

/-- A `while (!SD_HAL_TransmitData(0xff))` busy wait, bounded by fuel. -/
def waitNonzero (c : Card) : Nat → Spi → Option Spi
  | 0, _ => none
  | fuel + 1, s =>
    let r := xch c s 0xff
    if r.1 ≠ 0 then some r.2 else waitNonzero c fuel r.2

/-- `SD_HAL_ReadBuffer(buf, len)`: len dummy 0xFF exchanges (the received
payload is not needed by any claim, only the bus activity). -/
def readBufferX (c : Card) : Nat → Spi → Spi
  | 0, s => s
  | len + 1, s => readBufferX c len (xch c s 0xff).2

/-- `SD_HAL_WriteBuffer(buf, len)` starting at byte index `i` of the host
data stream `data`. -/
def writeBufferX (c : Card) (data : Nat → Nat) (i : Nat) : Nat → Spi → Spi
  | 0, s => s
  | len + 1, s => writeBufferX c data (i + 1) len (xch c s (data i)).2

/-- Embedding of `SD_ReadOCR`: CMD58 followed by the 4-byte R3; returns the
R1 response (the OCR bytes are recorded in the trace). -/
def SD_ReadOCR (c : Card) (s : Spi) : Nat × Spi :=
  let r := SD_SendCommand c s 58 0
  (r.1, (SD_GetResponseR3orR7 c r.2).2)

/-- Embedding of `SD_ReadCID`: CMD10, early return on a nonzero R1,
otherwise wait for the 0xFE data token, read 16 bytes, two CRC exchanges,
then the busy wait. -/
def SD_ReadCID (c : Card) (fuel : Nat) (s : Spi) : Option Spi :=
  let r := SD_SendCommand c s 10 0
  if r.1 ≠ 0 then some r.2
  else
    match waitToken c 0xfe fuel r.2 with
    | none => none
    | some s1 =>
      let s2 := readBufferX c 16 s1
      let s3 := (xch c s2 0xff).2
      let s4 := (xch c s3 0xff).2
      waitNonzero c fuel s4

/-- Embedding of `SD_ReadCSD`: same bus protocol as `SD_ReadCID` with
CMD9. -/
def SD_ReadCSD (c : Card) (fuel : Nat) (s : Spi) : Option Spi :=
  let r := SD_SendCommand c s 9 0
  if r.1 ≠ 0 then some r.2
  else
    match waitToken c 0xfe fuel r.2 with
    | none => none
    | some s1 =>
      let s2 := readBufferX c 16 s1
      let s3 := (xch c s2 0xff).2
      let s4 := (xch c s3 0xff).2
      waitNonzero c fuel s4

/-- The CMD55/ACMD41 loop of `SD_Init`, by recursion on the remaining
attempts (10 on entry). `none` is the `while(1);` hang entered on the
tenth failed attempt; `some` means the card answered R1 = 0x00. -/
def acmd41Loop (c : Card) : Nat → Spi → Option Spi
  | 0, _ => none
  | k + 1, s =>
    let r1 := SD_SendCommand c s 55 0
    let r2 := SD_SendCommand c r1.2 41 1073741824
    if r2.1 = 0 then some r2.2
    else if k = 0 then none
    else acmd41Loop c k r2.2

/-- Outcome of `SD_Init`. `ready` would mean reaching the final
`SD_HAL_DeselectCard()`; the two hang constructors are the `while(1);`
loops (after ten failed ACMD41 attempts, and the unconditional one after
the capacity check); `outOfFuel` marks exhaustion of a bounded wait that
the C performs unboundedly. -/
inductive InitOutcome where
  | ready : InitOutcome
  | hangAcmd41 : InitOutcome
  | hangAfterCapacity : InitOutcome
  | outOfFuel : InitOutcome
  deriving Repr, DecidableEq

/-- Embedding of `SD_Init`: select, 20 sync bytes, CMD0, CMD8 + R7, CMD58,
the ACMD41 loop, CID and CSD reads, CMD58 again, the capacity check — and
then the unconditional `while(1);` that precedes the dead
`SD_HAL_DeselectCard()` call. All R1 error checks in this function only
print and fall through, so they do not branch. -/
def SD_Init (c : Card) (fuel : Nat) : InitOutcome :=
  let s0 := spiSelect ⟨0, []⟩
  let s1 := readBufferX c 20 s0
  let s2 := (SD_SendCommand c s1 0 0).2
  let s3 := (SD_SendCommand c s2 8 (256 + 0xaa)).2
  let s4 := (SD_GetResponseR3orR7 c s3).2
  let s5 := (SD_ReadOCR c s4).2
  match acmd41Loop c 10 s5 with
  | none => .hangAcmd41
  | some s6 =>
    match SD_ReadCID c fuel s6 with
    | none => .outOfFuel
    | some s7 =>
      match SD_ReadCSD c fuel s7 with
      | none => .outOfFuel
      | some s8 =>
        let _ := SD_ReadOCR c s8
        .hangAfterCapacity

/-- The block-streaming loop of `SD_WriteSectors`: per block the 0xFC start
token, 512 data bytes, two CRC filler bytes, one exchange in which the data
response arrives (its value is discarded by the source), then the busy
wait. -/
def writeBlocks (c : Card) (data : Nat → Nat) (fuel : Nat) :
    Nat → Nat → Spi → Option Spi
  | 0, _, s => some s
  | count + 1, blk, s =>
    let s1 := (xch c s 0xfc).2
    let s2 := writeBufferX c data (blk * 512) 512 s1
    let s3 := (xch c s2 0xff).2
    let s4 := (xch c s3 0xff).2
    let s5 := (xch c s4 0xff).2
    match waitNonzero c fuel s5 with
    | none => none
    | some s6 => writeBlocks c data fuel count (blk + 1) s6

/-- Embedding of `SD_WriteSectors(buf, sector, count)`: SDSC byte
addressing, CMD25, R1 check (deselect and return 1 on failure), the block
loop, the 0xFD stop token, a filler byte, the busy wait, deselect,
return 0. -/
def SD_WriteSectors (c : Card) (isSDHC : Bool) (data : Nat → Nat)
    (sector count fuel : Nat) (s : Spi) : Option (Nat × Spi) :=
  let addr := if isSDHC then sector else sector * 512 % 4294967296
  let s0 := spiSelect s
  let r := SD_SendCommand c s0 25 addr
  if r.1 ≠ 0 then some (1, spiDeselect r.2)
  else
    match writeBlocks c data fuel count 0 r.2 with
    | none => none
    | some s1 =>
      let s2 := (xch c s1 0xfd).2
      let s3 := (xch c s2 0xff).2
      match waitNonzero c fuel s3 with
      | none => none
      | some s4 => some (0, spiDeselect s4)

/-- Specification-side R1 acquisition, following the spec's words: after
the 6-byte frame the host clocks dummy bytes until the first received byte
with its most-significant bit clear appears, and that byte is the R1
response (bounded here by fuel). `idx` is the exchange index at which the
first post-frame byte is received. -/
def r1AcquireSpec (c : Card) : Nat → Nat → Option Nat
  | 0, _ => none
  | fuel + 1, idx =>
    if c idx % 256 < 128 then some (c idx % 256) else r1AcquireSpec c fuel (idx + 1)

/-- Return code of an `SD_WriteSectors` run, when it completed. -/
def retOf : Option (Nat × Spi) → Option Nat
  | none => none
  | some p => some p.1

/-- Number of multi-block-write start tokens (0xFC) transmitted in a
trace. -/
def countStartTokens : List Ev → Nat
  | [] => 0
  | .xch 0xfc _ :: r => countStartTokens r + 1
  | _ :: r => countStartTokens r

/-- Start tokens transmitted by a completed `SD_WriteSectors` run. -/
def startTokensOf : Option (Nat × Spi) → Nat
  | none => 0
  | some p => countStartTokens p.2.evs

/-- Whether the most recent bus event of a completed run is the
chip-deselect edge. -/
def endsDeselected : Option (Nat × Spi) → Bool
  | some ⟨_, ⟨_, .desel :: _⟩⟩ => true
  | _ => false

/-- Number of occurrences of a given bus event in a completed run. -/
def countEvOf (e : Ev) : Option (Nat × Spi) → Nat
  | none => 0
  | some p => p.2.evs.count e

/-! Concrete inputs used by the counterexamples and witnesses below. -/

/-- Geometry with the FAT starting at sector 50 (only `startFatSector` and
`bytesPerSector` are consulted by `FAT_GetEntryInFAT`). -/
def gFat50 : FAT_PartitionInfo := ⟨0, 0, 0, 50, 0, 0, 0, 0, 512⟩

/-- A FAT image whose sector 50 holds the 32-bit word 0x11111111 at bytes
0..3 and 0x22222222 at bytes 256..259 (the second half of the sector). -/
def dC2 : Disk := fun s off =>
  if s = 50 ∧ 256 ≤ off ∧ off < 260 then 0x22
  else if s = 50 ∧ off < 4 then 0x11 else 0

/-- A FAT image where the entry of cluster 2 (sector 50, bytes 8..11) is
the canonical end-of-chain word 0x0FFFFFFF. -/
def dC3 : Disk := fun s off =>
  if s = 50 ∧ 8 ≤ off ∧ off < 11 then 0xff
  else if s = 50 ∧ off = 11 then 0x0f else 0

/-- A FAT image where the entry of cluster 2 is the raw word 0xFFFFFFFF. -/
def dC3b : Disk := fun s off =>
  if s = 50 ∧ 8 ≤ off ∧ off < 12 then 0xff else 0

/-- The 11 raw bytes of the padded 8.3 name `HELLO   TXT`. -/
def helloName : List Nat := [72, 69, 76, 76, 79, 32, 32, 32, 84, 88, 84]

/-- Geometry for the root-traversal counterexample: one sector per cluster,
data starting at sector 100, root cluster 2 (sector 100), FAT at
sector 50. -/
def g4 : FAT_PartitionInfo := ⟨11, 0, 0, 50, 100, 2, 100, 1, 512⟩

/-- A volume whose root directory spans two clusters linked through the
FAT: cluster 2 (sector 100, sixteen occupied-then-freed 0xE5 entries) is
chained to cluster 5 (sector 103, whose first entry is `HELLO   TXT`).
The physically adjacent sector 101 (cluster 3) starts with the 0x00
end-of-directory marker. -/
def disk4 : Disk := fun s off =>
  if s = 100 then (if off % 32 = 0 then 0xe5 else 0)
  else if s = 50 ∧ off = 8 then 5
  else if s = 103 then [72, 69, 76, 76, 79, 32, 32, 32, 84, 88, 84, 0x20].getD off 0
  else 0

/-- A disk whose MBR (valid 0xAA55 signature) holds a single non-empty
partition entry of type 0x07 (not FAT32-LBA 0x0B) at LBA 5, 1000 sectors,
and whose sector 5 is a well-formed FAT32 VBR: 512-byte sectors, 1 sector
per cluster, 1 reserved sector, 1 FAT of 10 sectors, root cluster 2,
totalSectors32 = 1000. -/
def diskC5 : Disk := fun s off =>
  if s = 0 then
    (if off = 510 then 0x55 else if off = 511 then 0xaa
     else if off = 450 then 7
     else if off = 454 then 5
     else if off = 458 then 0xe8 else if off = 459 then 3
     else 0)
  else if s = 5 then
    (if off = 510 then 0x55 else if off = 511 then 0xaa
     else if off = 12 then 2
     else if off = 13 then 1
     else if off = 14 then 1
     else if off = 16 then 1
     else if off = 32 then 0xe8 else if off = 33 then 3
     else if off = 36 then 10
     else if off = 44 then 2
     else 0)
  else 0

/-- The geometry `FAT_Init` derives from `diskC5`. -/
def geomC5 : FAT_PartitionInfo := ⟨7, 5, 1000, 6, 16, 2, 16, 1, 512⟩

/-- An open slot (id 0) for a 13-byte file with first cluster 3, both
cursors at 0. -/
def slot6 : FAT_File := ⟨helloName, 3, 13, 0x20, 0, 0, 0, 0, 0, 0⟩

/-- An open-file table holding just `slot6`. -/
def table6 : List FAT_File := [slot6]

/-- A fully compliant card for `SD_Init`: R1 = 0x01 while idle (exchanges
27, 35, 47, 59), ACMD41 answered with R1 = 0x00 on the first attempt
(exchange 67), CID/CSD commands accepted (75, 103) with their 0xFE data
tokens (76, 104), the final CMD58 accepted (131), every other byte
0xFF. -/
def perfectCard : Card := fun n =>
  if n = 27 ∨ n = 35 ∨ n = 47 ∨ n = 59 then 1
  else if n = 67 ∨ n = 75 ∨ n = 103 ∨ n = 131 then 0
  else if n = 76 ∨ n = 104 then 0xfe
  else 0xff

/-- All-zero host data for a write. -/
def dataZero : Nat → Nat := fun _ => 0

/-- A card that accepts CMD25 (R1 = 0 at exchange 7) and then answers the
first block's data response (exchange 523) with 0x0D — bits [3:1] = 0b110,
the write-error data-response token — and 0xFF everywhere else. -/
def cardC8 : Card := fun n => if n = 7 then 0 else if n = 523 then 0x0d else 0xff

/-- A card that never answers: every received byte is 0xFF. -/
def cardNoResp : Card := fun _ => 0xff

/-- A card that inserts two all-ones bytes after a command frame and then
answers R1 = 0x01 on the third post-frame byte (exchange 8). -/
def cardC9 : Card := fun n => if n = 8 then 1 else 0xff

/-- Tiny volume for the read-faithfulness witness: FAT at sector 1, data at
sector 10, one sector per cluster. -/
def g1w : FAT_PartitionInfo := ⟨11, 0, 0, 1, 10, 2, 10, 1, 512⟩

/-- Disk for the read-faithfulness witness: the three file bytes
[10, 20, 30] live in cluster 2 (sector 10). -/
def d1w : Disk := fun s off =>
  if s = 10 then (if off = 0 then 10 else if off = 1 then 20 else if off = 2 then 30 else 0)
  else 0

/-- Witness slot: open 3-byte file, first cluster 2, read cursor at 1. -/
def slot1w : FAT_File := ⟨helloName, 2, 3, 0x20, 0, 0, 0, 0, 0, 1⟩

/-- Witness open-file table. -/
def table1w : List FAT_File := [slot1w]

/-! The write path (`FAT_WriteFile`, fat.c:658-757). Writes mutate the
medium, so here the shared state of fat.c is carried explicitly: the disk,
the static 512-byte sector buffer `buf`, and the cached sector number
`sectInBuffer` of `FAT_ReadSector` (initialised to `UINT32_MAX` in the C).
Reads through the cache stay coherent because `FAT_WriteSector` always
flushes the current buffer to the medium. -/

/-- The mutable medium state of fat.c: the disk, the sector number held in
the static buffer, and the buffer contents (byte per offset). -/
structure Medium where
  disk : Disk
  sectInBuffer : Nat
  buf : Nat → Nat

/-- Embedding of `FAT_ReadSector` with its one-slot cache: a read of the
buffered sector keeps the buffer, any other sector is loaded from the
disk. -/
def FAT_ReadSectorM (m : Medium) (sector : Nat) : Medium :=
  if m.sectInBuffer = sector then m
  else ⟨m.disk, sector, fun off => m.disk sector off⟩

/-- Embedding of `FAT_WriteSector`: the buffer is written through to the
given sector (the cached sector number is not changed, as in the C). -/
def FAT_WriteSectorM (m : Medium) (sector : Nat) : Medium :=
  ⟨fun s off => if s = sector then m.buf off % 256 else m.disk s off,
    m.sectInBuffer, m.buf⟩

/-- Little-endian 32-bit word read from the sector buffer. -/
def bufLe32 (b : Nat → Nat) (off : Nat) : Nat :=
  b off % 256 + 256 * (b (off + 1) % 256) +
    65536 * (b (off + 2) % 256) + 16777216 * (b (off + 3) % 256)

/-- Medium-threaded embedding of `FAT_GetEntryInFAT`, used on the write
path where the sector buffer it loads the FAT sector into is the same
buffer the write loop mutates. Same address arithmetic as
`FAT_GetEntryInFAT`, including the `uint8_t` offset truncation. -/
def FAT_GetEntryInFATM (m : Medium) (g : FAT_PartitionInfo) (cluster : Nat) :
    Nat × Medium :=
  let bytePos := cluster * 4 % 4294967296
  let sector := (g.startFatSector + bytePos / g.bytesPerSector) % 4294967296
  let offset := (bytePos % g.bytesPerSector) % 256
  let m1 := FAT_ReadSectorM m sector
  (bufLe32 m1.buf offset, m1)

/-- Medium-threaded `FAT_GetCluster` loop (same control flow as
`fatClusterWalk`). -/
def fatClusterWalkM (g : FAT_PartitionInfo) : Nat → Nat → Medium → Nat × Nat × Medium
  | 0, entry, m => (entry, 0, m)
  | k + 1, entry, m =>
    let r := FAT_GetEntryInFATM m g entry
    if r.1 = 4294967295 then (r.1, 0, r.2)
    else
      let p := fatClusterWalkM g k r.1 r.2
      (p.1, p.2.1 + 1, p.2.2)

/-- Medium-threaded embedding of `FAT_GetCluster`. -/
def FAT_GetClusterM (m : Medium) (g : FAT_PartitionInfo)
    (firstCluster clusterOffset : Nat) : Nat × Nat × Medium :=
  fatClusterWalkM g clusterOffset firstCluster m

/-- Embedding of `FAT_UpdateRootEntry`: load the sector
`Cluster2Sector(rootDirCluster) + rootDirEntry * 32 / 512`, store the
slot's file size little-endian into the `fileSize` field of the 32-byte
record at buffer offset `rootDirEntry * 32` (the C does not reduce this
offset modulo the sector size: offsets beyond 511 model its out-of-bounds
buffer access), and write the sector back. -/
def FAT_UpdateRootEntry (g : FAT_PartitionInfo) (m : Medium) (slot : FAT_File) : Medium :=
  let sector := (FAT_Cluster2Sector g g.rootDirCluster +
    slot.rootDirEntry * 32 % 4294967296 / 512) % 4294967296
  let m1 := FAT_ReadSectorM m sector
  let base := slot.rootDirEntry * 32
  let m2 : Medium := ⟨m1.disk, m1.sectInBuffer, fun off =>
    if off = base + 28 then slot.fileSize % 256
    else if off = base + 29 then slot.fileSize / 256 % 256
    else if off = base + 30 then slot.fileSize / 65536 % 256
    else if off = base + 31 then slot.fileSize / 16777216 % 256
    else m1.buf off⟩
  FAT_WriteSectorM m2 sector

/-- The copy loop of `FAT_WriteFile`, by recursion on the remaining count.
Per byte: store `data[i]` into the buffer at the running offset and
advance the write pointer; on a sector boundary flush the buffer, step the
in-cluster sector (following the FAT to the next cluster when it wraps),
load the new sector and reset the buffer offset; finally, whenever the
write pointer has reached the file size, the size is set to the pointer
(the loop never breaks early, matching the C). Returns the final write
pointer, file size, base sector and medium. -/
def writeLoop (g : FAT_PartitionInfo) (data : Nat → Nat) :
    Nat → Nat → Nat → Nat → Nat → Nat → Nat → Nat → Medium →
      Nat × Nat × Nat × Medium
  | 0, _, wrPtr, fileSize, _, _, baseSector, _, m => (wrPtr, fileSize, baseSector, m)
  | count + 1, i, wrPtr, fileSize, baseCluster, sectorOffset, baseSector, ptrOff, m =>
    let m1 : Medium := ⟨m.disk, m.sectInBuffer,
      fun off => if off = ptrOff then data i % 256 else m.buf off⟩
    let wrPtr' := wrPtr + 1
    if wrPtr' % 512 = 0 then
      let m2 := FAT_WriteSectorM m1 baseSector
      let so := (sectorOffset + 1) % g.sectorsPerCluster
      let p : Nat × Medium :=
        if so = 0 then
          let r := FAT_GetClusterM m2 g baseCluster 1
          (r.1, r.2.2)
        else (baseCluster, m2)
      let bs := (FAT_Cluster2Sector g p.1 + so) % 4294967296
      let m3 := FAT_ReadSectorM p.2 bs
      let fs' := if fileSize ≤ wrPtr' then wrPtr' else fileSize
      writeLoop g data count (i + 1) wrPtr' fs' p.1 so bs 0 m3
    else
      let fs' := if fileSize ≤ wrPtr' then wrPtr' else fileSize
      writeLoop g data count (i + 1) wrPtr' fs' baseCluster sectorOffset baseSector
        (ptrOff + 1) m1

/-- Result of `FAT_WriteFile`: the `int` return value, the table after the
write-cursor/size update, and the medium (`oob` as in `HandleRes`). -/
inductive WriteRes where
  | oob : WriteRes
  | ret : Int → List FAT_File → Medium → WriteRes

/-- Embedding of `FAT_WriteFile(file, data, count)`: the same two handle
guards as the other operations, then the addressing computed from the
write pointer, the copy loop, the final sector flush and the
root-directory entry update. The `wrPtr >= fileSize` check at entry
(fat.c:675) only prints and has no effect, so it does not appear. The
return value is `count` (the loop never breaks early). -/
def FAT_WriteFile (g : FAT_PartitionInfo) (t : List FAT_File) (file : Int)
    (data : Nat → Nat) (count : Nat) (m : Medium) : WriteRes :=
  if 32 ≤ file then .ret (-1) t m
  else
    match tableGet t file with
    | none => .oob
    | some slot =>
      if slot.id = -1 then .ret (-1) t m
      else
        let sectorInFile := slot.wrPtr / 512
        let clusterOffset := sectorInFile / g.sectorsPerCluster
        let sectorOffset := sectorInFile % g.sectorsPerCluster
        let r := FAT_GetClusterM m g slot.firstCluster clusterOffset
        let baseSector := (FAT_Cluster2Sector g r.1 + sectorOffset) % 4294967296
        let m1 := FAT_ReadSectorM r.2.2 baseSector
        let out := writeLoop g data count 0 slot.wrPtr slot.fileSize r.1
          sectorOffset baseSector (slot.wrPtr % 512) m1
        let slot' := { slot with wrPtr := out.1, fileSize := out.2.1 }
        let m2 := FAT_WriteSectorM out.2.2.2 out.2.2.1
        .ret count (t.set file.toNat slot') (FAT_UpdateRootEntry g m2 slot')

/-- Medium for the C10 witness: the witness disk with an empty buffer and
the cache key at its `UINT32_MAX` initial value. -/
def medium1w : Medium := ⟨d1w, 4294967295, fun _ => 0⟩

/-! Supporting lemmas for the FAT chain walk and the read loop. -/

/-- Walking `k` links from the cluster at chain position `j` reaches chain
position `j + k`, provided none of the traversed entries is the raw word
0xFFFFFFFF the code tests for. -/
theorem chainAt_walk (d : Disk) (g : FAT_PartitionInfo) (first : Nat) (k : Nat) :
    ∀ j, (∀ i, j < i → i ≤ j + k → chainAt d g first i ≠ 4294967295) →
      fatClusterWalk d g k (chainAt d g first j) = (chainAt d g first (j + k), k) := by
  induction k with
  | zero => intro j _; simp [fatClusterWalk]
  | succ k ih =>
    intro j h
    have hne : chainAt d g first (j + 1) ≠ 4294967295 := h (j + 1) (by omega) (by omega)
    have he : FAT_GetEntryInFAT d g (chainAt d g first j) = chainAt d g first (j + 1) := rfl
    have ih' := ih (j + 1) (fun i h1 h2 => h i (by omega) (by omega))
    simp only [fatClusterWalk, he, if_neg hne, ih']
    rw [show j + 1 + k = j + (k + 1) from by omega]

/-- `FAT_GetCluster` performs a full walk of `k` links when no traversed
entry is the raw word 0xFFFFFFFF. -/
theorem getCluster_chain (d : Disk) (g : FAT_PartitionInfo) (first k : Nat)
    (h : ∀ i, 0 < i → i ≤ k → chainAt d g first i ≠ 4294967295) :
    FAT_GetCluster d g first k = (chainAt d g first k, k) := by
  have := chainAt_walk d g first k 0 (fun i h1 h2 => h i h1 (by omega))
  simpa [FAT_GetCluster, chainAt] using this

/-- A single-link `FAT_GetCluster` always reports the FAT entry of the
given cluster as the reached cluster (on the end-of-chain branch the code
returns the entry value itself). -/
theorem getCluster_one (d : Disk) (g : FAT_PartitionInfo) (c : Nat) :
    (FAT_GetCluster d g c 1).1 = FAT_GetEntryInFAT d g c := by
  simp only [FAT_GetCluster, fatClusterWalk]
  split <;> rfl

/-- The copy loop of `FAT_ReadFile` is faithful: started at position
`a < |D|` with the state the read path computes for `a`, it copies
`min count (|D| - a)` bytes, they are exactly `D[a ..)`, and the read
pointer advances by that amount — for a file whose layout bytes agree
with `D` (hypothesis `hD`). -/
theorem readLoop_faithful (d : Disk) (g : FAT_PartitionInfo) (first : Nat) (D : List Nat)
    (hD : ∀ p, p < D.length → D.getD p 0 = fileByte d g first p) :
    ∀ count a, a < D.length →
      readLoop d g D.length count a (posCluster d g first a) (posSo g a)
        (posSector d g first a) (a % 512)
      = ((D.drop a).take (min count (D.length - a)), a + min count (D.length - a)) := by
  intro count
  induction count with
  | zero => intro a ha; simp [readLoop]
  | succ count ih =>
    intro a ha
    have hbyte : rdByte d (posSector d g first a) (a % 512) = D.getD a 0 := (hD a ha).symm
    have hgetD : D.getD a 0 = D[a] := List.getD_eq_getElem D 0 ha
    by_cases hEnd : D.length ≤ a + 1
    · -- the EOF break: the last byte of the file is copied and the loop stops
      have hmin : min (count + 1) (D.length - a) = 1 := by omega
      simp only [readLoop, if_pos hEnd, hbyte, hgetD, hmin,
        List.drop_eq_getElem_cons ha, List.take_succ_cons, List.take_zero]
    · push_neg at hEnd
      have hnot : ¬ D.length ≤ a + 1 := by omega
      have hcons :
          (D.drop a).take (min (count + 1) (D.length - a)) =
            D[a] :: (D.drop (a + 1)).take (min count (D.length - (a + 1))) := by
        rw [show min (count + 1) (D.length - a) = min count (D.length - (a + 1)) + 1 from by omega,
          List.drop_eq_getElem_cons ha, List.take_succ_cons]
      by_cases h512 : (a + 1) % 512 = 0
      · -- sector boundary reached: new sector, possibly the next cluster
        have hq1 : (a + 1) / 512 = a / 512 + 1 := by omega
        have hso : (posSo g a + 1) % g.sectorsPerCluster = posSo g (a + 1) := by
          simp only [posSo, hq1, Nat.mod_add_mod]
        have hbc :
            (if posSo g (a + 1) = 0
              then (FAT_GetCluster d g (posCluster d g first a) 1).1
              else posCluster d g first a) = posCluster d g first (a + 1) := by
          by_cases h0 : posSo g (a + 1) = 0
          · rw [if_pos h0, getCluster_one]
            have hdvd : g.sectorsPerCluster ∣ a / 512 + 1 :=
              Nat.dvd_iff_mod_eq_zero.mpr (by simpa [posSo, hq1] using h0)
            simp only [posCluster, Nat.succ_div, hq1, if_pos hdvd]
            rfl
          · rw [if_neg h0]
            have hndvd : ¬ g.sectorsPerCluster ∣ a / 512 + 1 := by
              intro hdvd
              exact h0 (by simpa [posSo, hq1] using Nat.dvd_iff_mod_eq_zero.mp hdvd)
            simp only [posCluster, Nat.succ_div, hq1, if_neg hndvd, Nat.add_zero]
        have ih' := ih (a + 1) hEnd
        rw [h512] at ih'
        simp only [readLoop, if_neg hnot, if_pos h512, hbyte, hgetD, hso, hbc]
        have hbs :
            (FAT_Cluster2Sector g (posCluster d g first (a + 1)) + posSo g (a + 1))
              % 4294967296 = posSector d g first (a + 1) := rfl
        rw [hbs, ih', hcons]
        simp only [Prod.mk.injEq, List.cons.injEq, true_and]
        omega
      · -- still inside the current sector
        have hq : (a + 1) / 512 = a / 512 := by omega
        have hptr : (a + 1) % 512 = a % 512 + 1 := by omega
        have hpc : posCluster d g first (a + 1) = posCluster d g first a := by
          simp only [posCluster, hq]
        have hpso : posSo g (a + 1) = posSo g a := by simp only [posSo, hq]
        have hpsec : posSector d g first (a + 1) = posSector d g first a := by
          simp only [posSector, hpc, hpso]
        have ih' := ih (a + 1) hEnd
        rw [hpc, hpso, hpsec, hptr] at ih'
        simp only [readLoop, if_neg hnot, if_neg h512, hbyte, hgetD]
        rw [ih', hcons]
        simp only [Prod.mk.injEq, List.cons.injEq, true_and]
        omega

/-- C1, read faithfulness: on a mounted volume holding an open file of byte
content `D` (hypotheses `hD`, `hchain`: the bytes laid out along the FAT
chain are `D` and the chain covers the file), a read of `count` bytes from
read cursor `a < |D|` returns `n = min count (|D| - a)`, copies exactly the
bytes `D[a .. a+n)` into the caller's buffer, and advances the cursor to
`a + n` (so `0 ≤ n ≤ count`); if `a = |D|` on entry it returns the EOF
marker -1 instead and the table is unchanged. -/
theorem C1_read_faithfulness (d : Disk) (g : FAT_PartitionInfo) (t : List FAT_File)
    (file : Int) (slot : FAT_File) (D : List Nat) (count : Nat)
    (hfile : file < 32)
    (htab : tableGet t file = some slot)
    (hopen : slot.id ≠ -1)
    (hsize : slot.fileSize = D.length)
    (hD : ∀ p, p < D.length → D.getD p 0 = fileByte d g slot.firstCluster p)
    (hchain : ∀ i, 0 < i → i * (512 * g.sectorsPerCluster) < D.length →
        chainAt d g slot.firstCluster i ≠ 4294967295) :
    (slot.rdPtr = D.length → FAT_ReadFile d g t file count = .ret (-1) [] t) ∧
    (slot.rdPtr < D.length →
      FAT_ReadFile d g t file count =
        .ret (min count (D.length - slot.rdPtr))
          ((D.drop slot.rdPtr).take (min count (D.length - slot.rdPtr)))
          (t.set file.toNat
            { slot with rdPtr := slot.rdPtr + min count (D.length - slot.rdPtr) })) := by
  have hnle : ¬ 32 ≤ file := by omega
  constructor
  · intro hEq
    have heof : slot.fileSize ≤ slot.rdPtr := by omega
    simp only [FAT_ReadFile, if_neg hnle, htab, if_neg hopen, if_pos heof]
  · intro hLt
    have hwalk : FAT_GetCluster d g slot.firstCluster
        (slot.rdPtr / 512 / g.sectorsPerCluster) =
        (chainAt d g slot.firstCluster (slot.rdPtr / 512 / g.sectorsPerCluster),
          slot.rdPtr / 512 / g.sectorsPerCluster) := by
      refine getCluster_chain d g _ _ (fun i hi hile => hchain i hi ?_)
      calc i * (512 * g.sectorsPerCluster)
          ≤ slot.rdPtr / 512 / g.sectorsPerCluster * (512 * g.sectorsPerCluster) :=
            Nat.mul_le_mul_right _ hile
        _ = slot.rdPtr / (512 * g.sectorsPerCluster) * (512 * g.sectorsPerCluster) := by
            rw [Nat.div_div_eq_div_mul]
        _ ≤ slot.rdPtr := Nat.div_mul_le_self _ _
        _ < D.length := hLt
    have hloop := readLoop_faithful d g slot.firstCluster D hD count slot.rdPtr hLt
    have hlen : ((D.drop slot.rdPtr).take (min count (D.length - slot.rdPtr))).length
        = min count (D.length - slot.rdPtr) := by
      rw [List.length_take, List.length_drop]
      omega
    have hneof2 : ¬ D.length ≤ slot.rdPtr := by omega
    simp only [FAT_ReadFile, if_neg hnle, htab, if_neg hopen, hsize, if_neg hneof2, hwalk,
      posCluster, posSo, posSector] at hloop ⊢
    rw [hloop]
    simp [hlen]
    omega

/-- Witness for C1: on the concrete 3-byte file [10, 20, 30] with the read
cursor at 1, reading 5 bytes returns 2 bytes, namely [20, 30], and moves
the cursor to 3. -/
theorem C1_read_faithfulness_witness :
    FAT_ReadFile d1w g1w table1w 0 5 = .ret 2 [20, 30] [{ slot1w with rdPtr := 3 }] := by
  have h := (C1_read_faithfulness d1w g1w table1w 0 slot1w [10, 20, 30] 5
    (by decide) (by decide) (by decide) (by decide) (by decide)
    (fun i hi hlt => absurd hlt
      (by rw [show 512 * g1w.sectorsPerCluster = 512 from rfl,
              show ([10, 20, 30] : List Nat).length = 3 from rfl]; omega))).2 (by decide)
  exact h.trans (by decide)

/-- C2, FAT entry lookup: for cluster 64 the entry's in-sector byte offset
is (64 × 4) mod 512 = 256, in the second half of the FAT sector. The code
truncates the offset to a `uint8_t` (256 becomes 0) and applies no
`0x0FFFFFFF` mask, so it returns the word at byte 0 (0x11111111) instead
of the masked word at byte 256 (0x22222222 masked to 0x02222222) that the
claim specifies. -/
theorem C2_fat_entry_lookup_bug :
    le32 dC2 50 256 = 0x22222222 ∧
    fat_entry_spec dC2 gFat50 64 = 0x02222222 ∧
    FAT_GetEntryInFAT dC2 gFat50 64 = 0x11111111 := by decide

/-- C3, chain walk: on a FAT whose cluster-2 entry is the canonical
end-of-chain word 0x0FFFFFFF, `walk_chain(2, 1)` should return the
terminal cluster 2 with 0 hops; the code does not recognise the sentinel
(it compares the unmasked entry with 0xFFFFFFFF only) and returns
(0x0FFFFFFF, 1). Even when the raw entry is 0xFFFFFFFF, the code returns
the sentinel value itself as the cluster, not the terminal cluster 2. -/
theorem C3_chain_walk_bug :
    FAT_GetEntryInFAT dC3 gFat50 2 = 0x0fffffff ∧
    FAT_GetCluster dC3 gFat50 2 1 = (0x0fffffff, 1) ∧
    FAT_GetCluster dC3b gFat50 2 1 = (0xffffffff, 0) := by decide

/-- C4, root-directory traversal: on `disk4` the root directory continues
in cluster 5 (the FAT entry of root cluster 2 is 5) and the target entry
`HELLO   TXT` is the first entry of cluster 5's sector, yet the scan
reports "not found": it walks physically adjacent sectors from the root
cluster and never consults the FAT chain. -/
theorem C4_root_traversal_bug :
    FAT_FindFile disk4 g4 [] helloName 40 = some none ∧
    FAT_GetEntryInFAT disk4 g4 2 = 5 ∧
    dirName disk4 (FAT_Cluster2Sector g4 5) 0 = helloName := by decide

/-- C5, counterexample: `diskC5` has a valid MBR signature but no
partition-table entry of type 0x0B (entry 0, type byte at offset 450, has
type 0x07; entries 1-3, type bytes at 466/482/498, are empty), yet mount
does not return an unsupported-partition error — it proceeds to entry 0's
boot sector and succeeds, returning a full geometry. -/
theorem C5_mount_selection_counterexample :
    rdByte diskC5 0 450 = 0x07 ∧ rdByte diskC5 0 466 = 0 ∧
    rdByte diskC5 0 482 = 0 ∧ rdByte diskC5 0 498 = 0 ∧
    FAT_Init diskC5 = .ok geomC5 := by decide

/-- C5, amended: after the MBR signature check, mount proceeds directly to
the boot-sector stage of the recorded partition-0 entry — for every disk,
with no scan for a type-0x0B entry and no unsupported-partition error
(failures can only come from the boot-sector checks). -/
theorem C5_mount_selection_amended (d : Disk) (hsig : le16 d 0 510 = 0xaa55) :
    FAT_Init d = vbrStage d (mbrPartitionEntry d 0) := by
  simp [FAT_Init, hsig]

/-- Witness for the amended C5 on the concrete disk `diskC5`. -/
theorem C5_mount_selection_amended_witness :
    le16 diskC5 0 510 = 0xaa55 ∧
    FAT_Init diskC5 = vbrStage diskC5 (mbrPartitionEntry diskC5 0) :=
  ⟨by decide, C5_mount_selection_amended diskC5 (by decide)⟩

/-- C6, cursor invariant: moving the write pointer of an open 13-byte file
to 100 succeeds and stores `wr = 100 > size` (the size check is commented
out in the source), while the read pointer is correctly clamped — so the
invariant `wr ≤ size` is not preserved and the claimed rejection does not
happen. -/
theorem C6_cursor_invariant_bug :
    slot6.fileSize = 13 ∧
    FAT_MoveWrPtr table6 0 100 = .ret 100 [{ slot6 with wrPtr := 100 }] ∧
    FAT_MoveRdPtr table6 0 100 = .ret (-1) table6 := by decide

set_option maxRecDepth 4000 in
/-- C7, initialization termination: `SD_Init` never reaches the READY
state (the final deselect): every outcome, over all card behaviours and
all fuel, is one of the two `while(1);` hangs or fuel exhaustion of an
unbounded wait — and for a fully compliant card the concrete outcome is
the unconditional hang after the capacity check, not READY. The ACMD41
failure path likewise hangs instead of returning a typed error. -/
theorem C7_init_termination_bug :
    (∀ (c : Card) (fuel : Nat),
      SD_Init c fuel = .hangAcmd41 ∨ SD_Init c fuel = .hangAfterCapacity ∨
        SD_Init c fuel = .outOfFuel) ∧
    SD_Init perfectCard 50 = .hangAfterCapacity := by
  constructor
  · intro c fuel
    simp only [SD_Init]
    split
    · exact Or.inl rfl
    · split
      · exact Or.inr (Or.inr rfl)
      · split
        · exact Or.inr (Or.inr rfl)
        · exact Or.inr (Or.inl rfl)
  · decide

/-- The R1 response returned by `SD_SendCommand` is the byte received on
the eighth exchange after the starting state, unconditionally. -/
theorem sendCommand_r1 (c : Card) (s : Spi) (cmd args : Nat) :
    (SD_SendCommand c s cmd args).1 = c (s.n + 7) % 256 := rfl

set_option maxRecDepth 80000 in
/-- C8, counterexample: `cardC8` accepts CMD25 and answers the first
block's data response (the one byte the host clocks right after the block,
exchange 523 = 8 command exchanges + token + 512 data + 2 CRC) with 0x0D,
whose bits [3:1] are 0b110 (write error) — exactly one exchange of the run
receives 0x0D. The claim requires the operation to fail instead of
streaming further blocks; the code returns 0 (success) and transmits a
second 0xFC start token. -/
theorem C8_write_response_counterexample :
    (cardC8 523 >>> 1) &&& 7 = 6 ∧
    countEvOf (.xch 0xff 0x0d) (SD_WriteSectors cardC8 true dataZero 0 2 10 ⟨0, []⟩) = 1 ∧
    retOf (SD_WriteSectors cardC8 true dataZero 0 2 10 ⟨0, []⟩) = some 0 ∧
    startTokensOf (SD_WriteSectors cardC8 true dataZero 0 2 10 ⟨0, []⟩) = 2 := by decide

/-- Case analysis for every completed `SD_WriteSectors` run: the return
code is 1 exactly when CMD25's R1 byte is nonzero, 0 otherwise — the data
responses play no role — and the run always ends deselected. -/
theorem writeSectors_cases (c : Card) (hc : Bool) (data : Nat → Nat)
    (sector count fuel : Nat) (s : Spi) (p : Nat × Spi)
    (h : SD_WriteSectors c hc data sector count fuel s = some p) :
    ((p.1 = 1 ∧ c (s.n + 7) % 256 ≠ 0) ∨ (p.1 = 0 ∧ c (s.n + 7) % 256 = 0)) ∧
    endsDeselected (some p) = true := by
  by_cases hr : c (s.n + 7) % 256 = 0
  · have hr1 : (SD_SendCommand c (spiSelect s) 25
        (if hc then sector else sector * 512 % 4294967296)).1 = 0 := by
      rw [sendCommand_r1]; exact hr
    rw [SD_WriteSectors, hr1] at h
    simp only [ne_eq, not_true_eq_false, ite_false, if_neg, not_false_eq_true] at h
    rcases e1 : writeBlocks c data fuel count 0
        (SD_SendCommand c (spiSelect s) 25
          (if hc then sector else sector * 512 % 4294967296)).2 with _ | s1
    · rw [e1] at h
      exact Option.noConfusion h
    · rw [e1] at h
      replace h : (match waitNonzero c fuel (xch c (xch c s1 0xfd).2 0xff).2 with
          | none => none
          | some s4 => some (0, spiDeselect s4)) = some p := h
      rcases e2 : waitNonzero c fuel (xch c (xch c s1 0xfd).2 0xff).2 with _ | s4
      · rw [e2] at h
        exact Option.noConfusion h
      · rw [e2] at h
        injection h with h'
        subst h'
        exact ⟨Or.inr ⟨rfl, hr⟩, rfl⟩
  · have hr1 : ¬ (SD_SendCommand c (spiSelect s) 25
        (if hc then sector else sector * 512 % 4294967296)).1 = 0 := by
      rw [sendCommand_r1]; exact hr
    rw [SD_WriteSectors] at h
    rw [if_pos hr1] at h
    injection h with h'
    subst h'
    exact ⟨Or.inl ⟨rfl, hr⟩, rfl⟩

/-- C8, amended: after each block the host clocks one byte in which the
data response arrives but never inspects it; no write-rejected error
exists. A completed multi-block write returns 1 exactly when CMD25's R1
response is nonzero (deselecting the card) and 0 otherwise, whatever data
responses the card sends, and the card is left deselected either way. -/
theorem C8_write_response_amended (c : Card) (hc : Bool) (data : Nat → Nat)
    (sector count fuel : Nat) (s : Spi)
    (hsome : (SD_WriteSectors c hc data sector count fuel s).isSome = true) :
    retOf (SD_WriteSectors c hc data sector count fuel s) =
      some (if c (s.n + 7) % 256 = 0 then 0 else 1) ∧
    endsDeselected (SD_WriteSectors c hc data sector count fuel s) = true := by
  obtain ⟨p, hp⟩ := Option.isSome_iff_exists.mp hsome
  obtain ⟨hret, hdesel⟩ := writeSectors_cases c hc data sector count fuel s p hp
  rw [hp]
  refine ⟨?_, hdesel⟩
  rcases hret with ⟨h1, hne⟩ | ⟨h0, heq⟩
  · rw [if_neg hne, retOf, h1]
  · rw [if_pos heq, retOf, h0]

/-- Witness for the amended C8 on a card that rejects CMD25. -/
theorem C8_write_response_amended_witness :
    (SD_WriteSectors cardNoResp true dataZero 0 1 1 ⟨0, []⟩).isSome = true ∧
    retOf (SD_WriteSectors cardNoResp true dataZero 0 1 1 ⟨0, []⟩) =
      some (if cardNoResp 7 % 256 = 0 then 0 else 1) ∧
    endsDeselected (SD_WriteSectors cardNoResp true dataZero 0 1 1 ⟨0, []⟩) = true := by
  refine ⟨by decide, ?_⟩
  exact C8_write_response_amended cardNoResp true dataZero 0 1 1 ⟨0, []⟩ (by decide)

/-- C9, amended: for every command index and 32-bit argument the host
sends exactly the 6-byte frame — `0x40 | index`, the four argument bytes
most-significant first, then CRC byte 0x95 for CMD0, 0x87 for CMD8 and
0xFF otherwise — followed by exactly two dummy 0xFF exchanges, and returns
the byte received on the second of them as the R1 response, regardless of
whether its most-significant bit is clear. -/
theorem C9_command_framing_amended (c : Card) (s : Spi) (cmd args : Nat) :
    (SD_SendCommand c s cmd args).1 = c (s.n + 7) % 256 ∧
    (SD_SendCommand c s cmd args).2.n = s.n + 8 ∧
    (SD_SendCommand c s cmd args).2.evs =
      .xch 0xff (c (s.n + 7) % 256) :: .xch 0xff (c (s.n + 6) % 256) ::
      .xch (cmdCrc cmd % 256) (c (s.n + 5) % 256) ::
      .xch (args % 256) (c (s.n + 4) % 256) ::
      .xch (args >>> 8 % 256) (c (s.n + 3) % 256) ::
      .xch (args >>> 16 % 256) (c (s.n + 2) % 256) ::
      .xch (args >>> 24 % 256) (c (s.n + 1) % 256) ::
      .xch (Nat.lor 0x40 cmd % 256) (c s.n % 256) :: s.evs :=
  ⟨rfl, rfl, rfl⟩

/-- C9, counterexample: against a card that inserts two all-ones bytes
before answering 0x01, the code returns 0xFF (most-significant bit set) as
the R1 response, not the first byte with the MSB clear (0x01) that the
claim specifies. -/
theorem C9_r1_acquisition_counterexample :
    (SD_SendCommand cardC9 ⟨0, []⟩ 17 0).1 = 0xff ∧
    128 ≤ (SD_SendCommand cardC9 ⟨0, []⟩ 17 0).1 ∧
    r1AcquireSpec cardC9 10 6 = some 1 := by decide

/-- C10, one-sided handle validation: every handle-taking operation —
close, read, write, and the seek of either cursor — rejects with -1
exactly the indices ≥ 32 and never touches the table there, while every
negative index passes the validity check and reaches the out-of-bounds
table access. -/
theorem C10_handle_validation (d : Disk) (g : FAT_PartitionInfo)
    (t : List FAT_File) (file p : Int) (data : Nat → Nat) (count : Nat) (m : Medium) :
    (file < 0 →
      FAT_CloseFile t file = .oob ∧ FAT_MoveRdPtr t file p = .oob ∧
      FAT_MoveWrPtr t file p = .oob ∧ FAT_ReadFile d g t file count = .oob ∧
      FAT_WriteFile g t file data count m = .oob) ∧
    (32 ≤ file →
      FAT_CloseFile t file = .ret (-1) t ∧ FAT_MoveRdPtr t file p = .ret (-1) t ∧
      FAT_MoveWrPtr t file p = .ret (-1) t ∧
      FAT_ReadFile d g t file count = .ret (-1) [] t ∧
      FAT_WriteFile g t file data count m = .ret (-1) t m) := by
  constructor
  · intro hneg
    have hn32 : ¬ 32 ≤ file := by omega
    have htg : tableGet t file = none := by
      rw [tableGet, dif_neg]
      omega
    refine ⟨?_, ?_, ?_, ?_, ?_⟩ <;>
      simp only [FAT_CloseFile, FAT_MoveRdPtr, FAT_MoveWrPtr, FAT_ReadFile,
        FAT_WriteFile, if_neg hn32, htg]
  · intro hpos
    refine ⟨?_, ?_, ?_, ?_, ?_⟩ <;>
      simp only [FAT_CloseFile, FAT_MoveRdPtr, FAT_MoveWrPtr, FAT_ReadFile,
        FAT_WriteFile, if_pos hpos]

/-- Witness for C10 at handle -1 (out-of-bounds access reached, also for
write) and at handle 32 (rejected without a table access, also for
write). -/
theorem C10_handle_validation_witness :
    (FAT_CloseFile table6 (-1) = .oob ∧ FAT_ReadFile d1w g1w table6 (-1) 4 = .oob ∧
      FAT_WriteFile g1w table6 (-1) dataZero 4 medium1w = .oob) ∧
    (FAT_CloseFile table6 32 = .ret (-1) table6 ∧
      FAT_MoveWrPtr table6 32 7 = .ret (-1) table6 ∧
      FAT_WriteFile g1w table6 32 dataZero 4 medium1w = .ret (-1) table6 medium1w) :=
  ⟨⟨((C10_handle_validation d1w g1w table6 (-1) 0 dataZero 4 medium1w).1 (by decide)).1,
    ((C10_handle_validation d1w g1w table6 (-1) 0 dataZero 4 medium1w).1 (by decide)).2.2.2.1,
    ((C10_handle_validation d1w g1w table6 (-1) 0 dataZero 4 medium1w).1 (by decide)).2.2.2.2⟩,
   ⟨((C10_handle_validation d1w g1w table6 32 7 dataZero 4 medium1w).2 (by decide)).1,
    ((C10_handle_validation d1w g1w table6 32 7 dataZero 4 medium1w).2 (by decide)).2.2.1,
    ((C10_handle_validation d1w g1w table6 32 7 dataZero 4 medium1w).2 (by decide)).2.2.2.2⟩⟩
